import Mathlib

/-!
Verification of the `yune::Camera` component (src/include/Camera.h).

The repository ships only the class declaration (`Camera.h`); the member
function bodies are not part of the source tree.  Every operation below is
therefore modelled from the specification's description of its behaviour,
over an exact real-number idealisation of the `float` arithmetic:
vectors are 4-component real vectors, angles are radians, trigonometric
functions are the exact `Real.cos` / `Real.sin` / `Real.tan`.
-/

open Real

/-- Modelled from the spec: the `Vec4f` homogeneous 4-component vector type
(x, y, z, w), with `w = 0` for directions and `w = 1` for points. -/
structure Vec4 where
  x : ℝ
  y : ℝ
  z : ℝ
  w : ℝ

/-- Componentwise addition of two `Vec4` values (used for `eye += dir`). -/
def vadd (a b : Vec4) : Vec4 := ⟨a.x + b.x, a.y + b.y, a.z + b.z, a.w + b.w⟩

/-- The zero direction vector. -/
def vzero : Vec4 := ⟨0, 0, 0, 0⟩

/-- Three-component (spatial) dot product; the homogeneous `w` component does
not take part in the geometry of the basis vectors. -/
def dot3 (a b : Vec4) : ℝ := a.x * b.x + a.y * b.y + a.z * b.z

/-- Three-component cross product, producing a direction (`w = 0`). -/
def cross3 (a b : Vec4) : Vec4 :=
  ⟨a.y * b.z - a.z * b.y, a.z * b.x - a.x * b.z, a.x * b.y - a.y * b.x, 0⟩

/-- Normalisation of the spatial part of a vector (the `w` component is
kept); dividing by a zero norm is the usual Lean total division. -/
noncomputable def normalize3 (v : Vec4) : Vec4 :=
  ⟨v.x / Real.sqrt (dot3 v v), v.y / Real.sqrt (dot3 v v),
   v.z / Real.sqrt (dot3 v v), v.w⟩

/-- Rodrigues rotation of `v` about the axis `a` where `c` and `s` are the
cosine and sine of the rotation angle; the `w` component is kept. -/
def rotAxis (a : Vec4) (c s : ℝ) (v : Vec4) : Vec4 :=
  ⟨c * v.x + s * (a.y * v.z - a.z * v.y) + (1 - c) * dot3 a v * a.x,
   c * v.y + s * (a.z * v.x - a.x * v.z) + (1 - c) * dot3 a v * a.y,
   c * v.z + s * (a.x * v.y - a.y * v.x) + (1 - c) * dot3 a v * a.z,
   v.w⟩

/-- Rotation about the world vertical (+Y) axis where `c` and `s` are the
cosine and sine of the rotation angle; the `w` component is kept. -/
def rotY (c s : ℝ) (v : Vec4) : Vec4 :=
  ⟨c * v.x + s * v.z, v.y, -s * v.x + c * v.z, v.w⟩

/-- Modelled from the spec: the `Mat4x4f` view-to-world matrix, whose
columns are `[side, up, look_at, eye]` in that order. -/
structure Mat4x4 where
  col0 : Vec4
  col1 : Vec4
  col2 : Vec4
  col3 : Vec4

/-- Build the view-to-world matrix from the four camera vectors. -/
def mkViewToWorld (side up look_at eye : Vec4) : Mat4x4 :=
  ⟨side, up, look_at, eye⟩

/-- Modelled from the spec: the device-side camera record `Cam` declared in
the missing header `CL_headers.h`: position, the three basis vectors and
the scalar view-plane distance. -/
structure Cam where
  eye : Vec4
  side : Vec4
  up : Vec4
  look_at : Vec4
  view_plane_dist : ℝ

/-- The state of `yune::Camera`: the public dirty flag and the four public
vectors, and the private FOV-derived and speed scalars and the cached
view-to-world matrix (src/include/Camera.h lines 97-108). -/
structure Camera where
  is_changed : Bool
  side : Vec4
  up : Vec4
  look_at : Vec4
  eye : Vec4
  view_plane_dist : ℝ
  y_FOV : ℝ
  rotation_speed : ℝ
  move_speed : ℝ
  view_to_world_mat : Mat4x4

namespace Camera

/-- Modelled from the spec: the overloaded constructor
`Camera(float y_FOV, float rot_speed, float mov_speed)` (missing body).
Initial basis `side = +X`, `up = +Y`, `look_at = -Z`, `eye` at the origin,
`is_changed = true`, and
`view_plane_dist = 1 / tan(radians(y_FOV) / 2)`. -/
noncomputable def init (y_FOV rot_speed mov_speed : ℝ) : Camera :=
  let s : Vec4 := ⟨1, 0, 0, 0⟩
  let u : Vec4 := ⟨0, 1, 0, 0⟩
  let l : Vec4 := ⟨0, 0, -1, 0⟩
  let e : Vec4 := ⟨0, 0, 0, 1⟩
  { is_changed := true
    side := s, up := u, look_at := l, eye := e
    view_plane_dist := 1 / Real.tan (y_FOV * π / 180 / 2)
    y_FOV := y_FOV
    rotation_speed := rot_speed
    move_speed := mov_speed
    view_to_world_mat := mkViewToWorld s u l e }

/-- Modelled from the spec: calling the overloaded constructor with only a
`y_FOV` argument, so that the declared default arguments
`rot_speed = 0.25f` and `mov_speed = 0.3f` are used. -/
noncomputable def initDefault (y_FOV : ℝ) : Camera := init y_FOV 0.25 0.3

/-- Modelled from the spec: the default constructor `Camera()`:
`y_FOV = 60` degrees, default speeds, the initial basis, `is_changed = true`. -/
noncomputable def mkDefault : Camera := initDefault 60

/-- Modelled from the spec: `Camera::setOrientation(dir, pitch, yaw)`
(missing body).  Rotates `up` and `look_at` by `pitch` about `side`, then
rotates all three basis vectors by `yaw` about the world vertical axis,
re-derives `side` as the normalised cross product of the rotated `look_at`
and `up` (the spec's re-orthonormalisation step, oriented so that the
initial basis `side = +X`, `up = +Y`, `look_at = -Z` is a fixed point),
translates `eye += dir`, rebuilds the view-to-world matrix and sets
`is_changed = true`. -/
noncomputable def setOrientation (cam : Camera) (dir : Vec4) (pitch yaw : ℝ) :
    Camera :=
  let cp := Real.cos pitch
  let sp := Real.sin pitch
  let cy := Real.cos yaw
  let sy := Real.sin yaw
  let u1 := rotAxis cam.side cp sp cam.up
  let l1 := rotAxis cam.side cp sp cam.look_at
  let u2 := rotY cy sy u1
  let l2 := rotY cy sy l1
  let s2 := normalize3 (cross3 l2 u2)
  let e2 := vadd cam.eye dir
  { cam with
    is_changed := true
    side := s2, up := u2, look_at := l2, eye := e2
    view_to_world_mat := mkViewToWorld s2 u2 l2 e2 }

/-- Modelled from the spec: `Camera::setViewMatrix(side, up, look_at, eye)`
(missing body).  Overwrites the four public vectors verbatim, rebuilds the
view-to-world matrix from them and sets `is_changed = true`. -/
def setViewMatrix (cam : Camera) (side up look_at eye : Vec4) : Camera :=
  { cam with
    is_changed := true
    side := side, up := up, look_at := look_at, eye := eye
    view_to_world_mat := mkViewToWorld side up look_at eye }

/-- Modelled from the spec: `Camera::setBuffer(Cam*)` (missing body). A pure
write of `eye`, `side`, `up`, `look_at` and `view_plane_dist` into the
caller-owned record; the camera itself is returned unchanged (the write
does not clear `is_changed`). -/
def setBuffer (cam : Camera) (_cam_data : Cam) : Camera × Cam :=
  (cam, ⟨cam.eye, cam.side, cam.up, cam.look_at, cam.view_plane_dist⟩)

/-- Modelled from the spec: `Camera::setRotationSpeed(rot_speed)` (missing
body).  Stores the scalar verbatim; nothing else changes. -/
def setRotationSpeed (cam : Camera) (rot_speed : ℝ) : Camera :=
  { cam with rotation_speed := rot_speed }

/-- Modelled from the spec: `Camera::setMovementSpeed(mov_speed)` (missing
body).  Stores the scalar verbatim; nothing else changes. -/
def setMovementSpeed (cam : Camera) (mov_speed : ℝ) : Camera :=
  { cam with move_speed := mov_speed }

end Camera

/-- One `setOrientation` input: a translation direction and the pitch and
yaw deltas of one mouse/keyboard tick. -/
structure OrientStep where
  dir : Vec4
  pitch : ℝ
  yaw : ℝ

/-- Apply a finite sequence of `setOrientation` calls, first element first. -/
noncomputable def applyOrientSeq (cam : Camera) : List OrientStep → Camera
  | [] => cam
  | st :: rest => applyOrientSeq (cam.setOrientation st.dir st.pitch st.yaw) rest

/-- One call to any of the mutating operations of the `Camera` interface. -/
inductive CamOp where
  | orient (dir : Vec4) (pitch yaw : ℝ)
  | viewMat (side up look_at eye : Vec4)
  | buffer (cam_data : Cam)
  | rotSpeed (r : ℝ)
  | movSpeed (m : ℝ)

/-- Apply one operation to the camera (for `setBuffer`, the camera component
of the result, since the written record is caller-owned). -/
noncomputable def applyOp (cam : Camera) : CamOp → Camera
  | CamOp.orient dir pitch yaw => cam.setOrientation dir pitch yaw
  | CamOp.viewMat s u l e => cam.setViewMatrix s u l e
  | CamOp.buffer d => (cam.setBuffer d).1
  | CamOp.rotSpeed r => cam.setRotationSpeed r
  | CamOp.movSpeed m => cam.setMovementSpeed m

/-- Apply a finite sequence of operations, first element first. -/
noncomputable def applyOps (cam : Camera) : List CamOp → Camera
  | [] => cam
  | op :: rest => applyOps (applyOp cam op) rest

/-- Three vectors form an orthonormal triple: spatially unit length and
pairwise orthogonal. -/
def orthonormalTriple (s u l : Vec4) : Prop :=
  dot3 s s = 1 ∧ dot3 u u = 1 ∧ dot3 l l = 1 ∧
  dot3 s u = 0 ∧ dot3 s l = 0 ∧ dot3 u l = 0

/-- The camera's basis `side`, `up`, `look_at` is orthonormal. -/
def orthonormalBasis (cam : Camera) : Prop :=
  orthonormalTriple cam.side cam.up cam.look_at

/-- Vectors are equal when all four components are. -/
theorem Vec4.ext' (a b : Vec4) (hx : a.x = b.x) (hy : a.y = b.y)
    (hz : a.z = b.z) (hw : a.w = b.w) : a = b := by
  cases a; cases b; simp_all

/-- The dot product is symmetric. -/
theorem dot3_comm (a b : Vec4) : dot3 a b = dot3 b a := by
  simp only [dot3]; ring

/-- Adding the zero direction is the identity. -/
theorem vadd_vzero (v : Vec4) : vadd v vzero = v := by
  apply Vec4.ext' <;> simp [vadd, vzero]

/-- A Rodrigues rotation about a unit axis preserves dot products whenever
the cosine/sine pair lies on the unit circle. -/
theorem dot3_rotAxis (a : Vec4) (c s : ℝ) (v w : Vec4)
    (ha : dot3 a a = 1) (hcs : c ^ 2 + s ^ 2 = 1) :
    dot3 (rotAxis a c s v) (rotAxis a c s w) = dot3 v w := by
  simp only [dot3, rotAxis] at ha hcs ⊢
  linear_combination
    (s ^ 2 * (v.x * w.x + v.y * w.y + v.z * w.z) +
      (1 - c) ^ 2 * (a.x * v.x + a.y * v.y + a.z * v.z) *
        (a.x * w.x + a.y * w.y + a.z * w.z)) * ha +
    ((v.x * w.x + v.y * w.y + v.z * w.z) -
      (a.x * v.x + a.y * v.y + a.z * v.z) *
        (a.x * w.x + a.y * w.y + a.z * w.z)) * hcs

/-- A rotation about the world vertical axis preserves dot products whenever
the cosine/sine pair lies on the unit circle. -/
theorem dot3_rotY (c s : ℝ) (v w : Vec4) (hcs : c ^ 2 + s ^ 2 = 1) :
    dot3 (rotY c s v) (rotY c s w) = dot3 v w := by
  simp only [dot3, rotY] at hcs ⊢
  linear_combination (v.x * w.x + v.z * w.z) * hcs

/-- Lagrange identity for the square norm of a cross product. -/
theorem dot3_cross3_self (v w : Vec4) :
    dot3 (cross3 v w) (cross3 v w) = dot3 v v * dot3 w w - dot3 v w ^ 2 := by
  simp only [dot3, cross3]; ring

/-- The cross product is orthogonal to its first factor. -/
theorem dot3_cross3_left (v w : Vec4) : dot3 (cross3 v w) v = 0 := by
  simp only [dot3, cross3]; ring

/-- The cross product is orthogonal to its second factor. -/
theorem dot3_cross3_right (v w : Vec4) : dot3 (cross3 v w) w = 0 := by
  simp only [dot3, cross3]; ring

/-- Normalising an already unit-length vector does nothing. -/
theorem normalize3_unit (v : Vec4) (h : dot3 v v = 1) : normalize3 v = v := by
  apply Vec4.ext' <;> simp [normalize3, h, Real.sqrt_one]

/-- Normalisation scales each dot product by the reciprocal norm; in
particular it preserves orthogonality. -/
theorem dot3_normalize3_left (v w : Vec4) :
    dot3 (normalize3 v) w = dot3 v w / Real.sqrt (dot3 v v) := by
  simp only [dot3, normalize3]; ring

/-- A rotation whose cosine/sine pair is `(1, 0)` is the identity. -/
theorem rotAxis_one_zero (a v : Vec4) : rotAxis a 1 0 v = v := by
  apply Vec4.ext' <;> simp [rotAxis, dot3]

/-- A vertical-axis rotation whose cosine/sine pair is `(1, 0)` is the
identity. -/
theorem rotY_one_zero (v : Vec4) : rotY 1 0 v = v := by
  apply Vec4.ext' <;> simp [rotY]

namespace Camera

/-- Unfolding lemma: the `side` produced by `setOrientation`. -/
theorem setOrientation_side (cam : Camera) (dir : Vec4) (p y : ℝ) :
    (cam.setOrientation dir p y).side =
      normalize3 (cross3
        (rotY (Real.cos y) (Real.sin y)
          (rotAxis cam.side (Real.cos p) (Real.sin p) cam.look_at))
        (rotY (Real.cos y) (Real.sin y)
          (rotAxis cam.side (Real.cos p) (Real.sin p) cam.up))) := rfl

/-- Unfolding lemma: the `up` produced by `setOrientation`. -/
theorem setOrientation_up (cam : Camera) (dir : Vec4) (p y : ℝ) :
    (cam.setOrientation dir p y).up =
      rotY (Real.cos y) (Real.sin y)
        (rotAxis cam.side (Real.cos p) (Real.sin p) cam.up) := rfl

/-- Unfolding lemma: the `look_at` produced by `setOrientation`. -/
theorem setOrientation_look_at (cam : Camera) (dir : Vec4) (p y : ℝ) :
    (cam.setOrientation dir p y).look_at =
      rotY (Real.cos y) (Real.sin y)
        (rotAxis cam.side (Real.cos p) (Real.sin p) cam.look_at) := rfl

end Camera

/-- Each operation leaves `view_plane_dist` untouched: it is computed only
at construction. -/
theorem applyOp_view_plane_dist (cam : Camera) (op : CamOp) :
    (applyOp cam op).view_plane_dist = cam.view_plane_dist := by
  cases op <;> rfl

/-- Sequences of operations leave `view_plane_dist` untouched. -/
theorem applyOps_view_plane_dist (ops : List CamOp) (cam : Camera) :
    (applyOps cam ops).view_plane_dist = cam.view_plane_dist := by
  induction ops generalizing cam with
  | nil => rfl
  | cons op rest ih => rw [applyOps, ih, applyOp_view_plane_dist]

/-- C2: `view_plane_dist` is derived from `y_FOV` (degrees) as
`1 / tan(radians(y_FOV) / 2)`, computed only at construction; a camera
built with `y_FOV = 90` has `view_plane_dist = 1` and one built with
`y_FOV = 60` has `view_plane_dist` within `1/1000` of `1.732`. -/
theorem view_plane_dist_spec :
    (∀ f r m, (Camera.init f r m).view_plane_dist =
      1 / Real.tan (f * π / 180 / 2)) ∧
    (∀ r m, (Camera.init 90 r m).view_plane_dist = 1) ∧
    (∀ r m, |(Camera.init 60 r m).view_plane_dist - 1.732| < 1 / 1000) ∧
    (∀ cam ops, (applyOps cam ops).view_plane_dist = cam.view_plane_dist) := by
  refine ⟨fun f r m => rfl, fun r m => ?_, fun r m => ?_, fun cam ops =>
    applyOps_view_plane_dist ops cam⟩
  · show 1 / Real.tan (90 * π / 180 / 2) = 1
    have h : (90 : ℝ) * π / 180 / 2 = π / 4 := by ring
    rw [h, Real.tan_pi_div_four]
    norm_num
  · have hs3 : (0 : ℝ) < Real.sqrt 3 := Real.sqrt_pos.mpr (by norm_num)
    have hsq : Real.sqrt 3 ^ 2 = 3 := Real.sq_sqrt (by norm_num)
    have hv : (Camera.init 60 r m).view_plane_dist = Real.sqrt 3 := by
      show 1 / Real.tan (60 * π / 180 / 2) = Real.sqrt 3
      have h : (60 : ℝ) * π / 180 / 2 = π / 6 := by ring
      have htan : Real.tan (π / 6) = 1 / Real.sqrt 3 := by
        rw [Real.tan_eq_sin_div_cos, Real.sin_pi_div_six, Real.cos_pi_div_six]
        field_simp
      rw [h, htan, one_div_one_div]
    rw [hv, abs_lt]
    constructor <;> nlinarith [hs3, hsq]

/-- C3: `setViewMatrix` overwrites the four public vectors exactly with the
supplied values (no normalisation or orthogonalisation), rebuilds
`view_to_world_mat` from them, and sets `is_changed = true`. -/
theorem setViewMatrix_verbatim (c : Camera) (s u l e : Vec4) :
    (c.setViewMatrix s u l e).side = s ∧
    (c.setViewMatrix s u l e).up = u ∧
    (c.setViewMatrix s u l e).look_at = l ∧
    (c.setViewMatrix s u l e).eye = e ∧
    (c.setViewMatrix s u l e).view_to_world_mat = mkViewToWorld s u l e ∧
    (c.setViewMatrix s u l e).is_changed = true :=
  ⟨rfl, rfl, rfl, rfl, rfl, rfl⟩

/-- C4: for every choice of the four input vectors, `setViewMatrix` followed
by `setBuffer` reproduces exactly the supplied `side`, `up`, `look_at` and
`eye` in the target structure. -/
theorem setViewMatrix_setBuffer_roundtrip (c : Camera) (d : Cam)
    (s u l e : Vec4) :
    ((c.setViewMatrix s u l e).setBuffer d).2.side = s ∧
    ((c.setViewMatrix s u l e).setBuffer d).2.up = u ∧
    ((c.setViewMatrix s u l e).setBuffer d).2.look_at = l ∧
    ((c.setViewMatrix s u l e).setBuffer d).2.eye = e :=
  ⟨rfl, rfl, rfl, rfl⟩

/-- C5: `setOrientation(dir, pitch, yaw)` translates the position by exactly
the supplied direction (`eye := eye + dir`) and sets `is_changed = true`;
it is a total function of its inputs. -/
theorem setOrientation_translates_eye (c : Camera) (dir : Vec4) (p y : ℝ) :
    (c.setOrientation dir p y).eye = vadd c.eye dir ∧
    (c.setOrientation dir p y).is_changed = true :=
  ⟨rfl, rfl⟩

/-- C7: `setRotationSpeed` and `setMovementSpeed` store their argument
verbatim with no clamping and never mutate `is_changed`, `side`, `up`,
`look_at` or `eye`. -/
theorem speed_setters_pure (c : Camera) (r m : ℝ) :
    (c.setRotationSpeed r).rotation_speed = r ∧
    (c.setRotationSpeed r).is_changed = c.is_changed ∧
    (c.setRotationSpeed r).side = c.side ∧
    (c.setRotationSpeed r).up = c.up ∧
    (c.setRotationSpeed r).look_at = c.look_at ∧
    (c.setRotationSpeed r).eye = c.eye ∧
    (c.setMovementSpeed m).move_speed = m ∧
    (c.setMovementSpeed m).is_changed = c.is_changed ∧
    (c.setMovementSpeed m).side = c.side ∧
    (c.setMovementSpeed m).up = c.up ∧
    (c.setMovementSpeed m).look_at = c.look_at ∧
    (c.setMovementSpeed m).eye = c.eye :=
  ⟨rfl, rfl, rfl, rfl, rfl, rfl, rfl, rfl, rfl, rfl, rfl, rfl⟩

/-- C10: the overloaded constructor called with only a `y_FOV` argument uses
the declared default arguments, so `rotation_speed = 0.25` and
`move_speed = 0.3`. -/
theorem initDefault_speeds (f : ℝ) :
    (Camera.initDefault f).rotation_speed = 0.25 ∧
    (Camera.initDefault f).move_speed = 0.3 :=
  ⟨rfl, rfl⟩

/-- One `setOrientation` basis update sends an orthonormal triple to an
orthonormal triple: both rotations preserve dot products and the re-derived
`side` is the normalised cross product of an orthonormal pair. -/
theorem orientStep_orthonormal (s u l : Vec4) (cp sp cy sy : ℝ)
    (h : orthonormalTriple s u l) (hp : cp ^ 2 + sp ^ 2 = 1)
    (hy : cy ^ 2 + sy ^ 2 = 1) :
    orthonormalTriple
      (normalize3 (cross3 (rotY cy sy (rotAxis s cp sp l))
        (rotY cy sy (rotAxis s cp sp u))))
      (rotY cy sy (rotAxis s cp sp u))
      (rotY cy sy (rotAxis s cp sp l)) := by
  obtain ⟨hss, huu, hll, hsu, hsl, hul⟩ := h
  set u2 := rotY cy sy (rotAxis s cp sp u) with hu2
  set l2 := rotY cy sy (rotAxis s cp sp l) with hl2
  have huu2 : dot3 u2 u2 = 1 := by
    rw [hu2, dot3_rotY _ _ _ _ hy, dot3_rotAxis _ _ _ _ _ hss hp]; exact huu
  have hll2 : dot3 l2 l2 = 1 := by
    rw [hl2, dot3_rotY _ _ _ _ hy, dot3_rotAxis _ _ _ _ _ hss hp]; exact hll
  have hul2 : dot3 l2 u2 = 0 := by
    rw [hl2, hu2, dot3_rotY _ _ _ _ hy, dot3_rotAxis _ _ _ _ _ hss hp,
      dot3_comm]
    exact hul
  have hcr : dot3 (cross3 l2 u2) (cross3 l2 u2) = 1 := by
    rw [dot3_cross3_self, hll2, huu2, hul2]; norm_num
  rw [normalize3_unit _ hcr]
  exact ⟨hcr, huu2, hll2, dot3_cross3_right l2 u2, dot3_cross3_left l2 u2,
    by rw [dot3_comm]; exact hul2⟩

/-- A single `setOrientation` call preserves orthonormality of the basis. -/
theorem Camera.setOrientation_orthonormal (cam : Camera) (dir : Vec4)
    (p y : ℝ) (h : orthonormalBasis cam) :
    orthonormalBasis (cam.setOrientation dir p y) := by
  have key := orientStep_orthonormal cam.side cam.up cam.look_at
    (Real.cos p) (Real.sin p) (Real.cos y) (Real.sin y) h
    (Real.cos_sq_add_sin_sq p) (Real.cos_sq_add_sin_sq y)
  show orthonormalTriple _ _ _
  rw [Camera.setOrientation_side, Camera.setOrientation_up,
    Camera.setOrientation_look_at]
  exact key

/-- Every finite sequence of `setOrientation` calls preserves orthonormality
of the basis. -/
theorem applyOrientSeq_orthonormal (steps : List OrientStep) (cam : Camera)
    (h : orthonormalBasis cam) : orthonormalBasis (applyOrientSeq cam steps) := by
  induction steps generalizing cam with
  | nil => exact h
  | cons st rest ih => exact ih _ (Camera.setOrientation_orthonormal _ _ _ _ h)

/-- C1: after a `setViewMatrix` call with an orthonormal input triple, after
any single `setOrientation` call on a camera with an orthonormal basis, and
after every finite sequence of `setOrientation` calls, the basis `side`,
`up`, `look_at` stays exactly orthonormal — in this exact-arithmetic model
the drift is zero, hence within any tolerance such as `1e-4`. -/
theorem camera_orthonormal_invariant (cam : Camera) (steps : List OrientStep)
    (s u l e dir : Vec4) (p y : ℝ)
    (hin : orthonormalTriple s u l) (h : orthonormalBasis cam) :
    orthonormalBasis (cam.setViewMatrix s u l e) ∧
    orthonormalBasis (cam.setOrientation dir p y) ∧
    orthonormalBasis (applyOrientSeq cam steps) :=
  ⟨hin, Camera.setOrientation_orthonormal cam dir p y h,
    applyOrientSeq_orthonormal steps cam h⟩

/-- Witness for C1 at a concrete camera, input triple and call sequence. -/
theorem camera_orthonormal_invariant_witness :
    orthonormalBasis ((Camera.init 90 0.25 0.3).setViewMatrix
      ⟨1, 0, 0, 0⟩ ⟨0, 1, 0, 0⟩ ⟨0, 0, -1, 0⟩ ⟨0, 0, 0, 1⟩) ∧
    orthonormalBasis ((Camera.init 90 0.25 0.3).setOrientation vzero 0 0) ∧
    orthonormalBasis (applyOrientSeq (Camera.init 90 0.25 0.3)
      [⟨vzero, 0, 0⟩]) :=
  camera_orthonormal_invariant (Camera.init 90 0.25 0.3) [⟨vzero, 0, 0⟩]
    ⟨1, 0, 0, 0⟩ ⟨0, 1, 0, 0⟩ ⟨0, 0, -1, 0⟩ ⟨0, 0, 0, 1⟩ vzero 0 0
    (by refine ⟨?_, ?_, ?_, ?_, ?_, ?_⟩ <;> norm_num [dot3])
    (by refine ⟨?_, ?_, ?_, ?_, ?_, ?_⟩ <;>
      norm_num [Camera.init, dot3])

/-- No single operation turns the dirty flag from `true` to `false`. -/
theorem applyOp_is_changed (cam : Camera) (op : CamOp)
    (h : cam.is_changed = true) : (applyOp cam op).is_changed = true := by
  cases op <;> first | rfl | exact h

/-- No sequence of operations turns the dirty flag from `true` to `false`. -/
theorem applyOps_is_changed (ops : List CamOp) (cam : Camera)
    (h : cam.is_changed = true) : (applyOps cam ops).is_changed = true := by
  induction ops generalizing cam with
  | nil => exact h
  | cons op rest ih => exact ih _ (applyOp_is_changed _ _ h)

/-- C8: no operation ever clears `is_changed`: `setOrientation` and
`setViewMatrix` set it to `true`, `setBuffer` is a pure write that leaves
the camera untouched, the speed setters leave the flag as it was, and so
over any sequence of operations a `true` flag stays `true` until an
external owner resets it. -/
theorem is_changed_never_cleared (cam : Camera) (ops : List CamOp)
    (dir : Vec4) (p y : ℝ) (s u l e : Vec4) (d : Cam) (r m : ℝ)
    (h : cam.is_changed = true) :
    (cam.setOrientation dir p y).is_changed = true ∧
    (cam.setViewMatrix s u l e).is_changed = true ∧
    (cam.setBuffer d).1 = cam ∧
    (cam.setRotationSpeed r).is_changed = cam.is_changed ∧
    (cam.setMovementSpeed m).is_changed = cam.is_changed ∧
    (applyOps cam ops).is_changed = true :=
  ⟨rfl, rfl, rfl, rfl, rfl, applyOps_is_changed ops cam h⟩

/-- Witness for C8 at a concrete camera and operation sequence. -/
theorem is_changed_never_cleared_witness :
    (Camera.init 90 0.25 0.3).is_changed = true ∧
    (applyOps (Camera.init 90 0.25 0.3)
      [CamOp.rotSpeed 0, CamOp.movSpeed 1,
        CamOp.buffer ⟨vzero, vzero, vzero, vzero, 0⟩]).is_changed = true :=
  ⟨rfl, (is_changed_never_cleared (Camera.init 90 0.25 0.3)
    [CamOp.rotSpeed 0, CamOp.movSpeed 1,
      CamOp.buffer ⟨vzero, vzero, vzero, vzero, 0⟩]
    vzero 0 0 vzero vzero vzero vzero ⟨vzero, vzero, vzero, vzero, 0⟩ 0 0
    rfl).2.2.2.2.2⟩

/-- A camera whose `side` is not the normalised cross product of `look_at`
and `up`; `setViewMatrix` installs it verbatim. -/
noncomputable def camC6 : Camera :=
  (Camera.init 90 0.25 0.3).setViewMatrix
    ⟨0, 0, 1, 0⟩ ⟨0, 1, 0, 0⟩ ⟨0, 0, -1, 0⟩ ⟨0, 0, 0, 1⟩

/-- C6 counterexample: on a camera whose `side` does not already equal the
normalised cross product of `look_at` and `up`, the call
`setOrientation(0, 0, 0)` replaces `side` by that cross product, so it does
not leave `side` unchanged. -/
theorem setOrientation_zero_noop_counterexample :
    (camC6.setOrientation vzero 0 0).side ≠ camC6.side := by
  have h1 : (camC6.setOrientation vzero 0 0).side.x = 1 := by
    rw [Camera.setOrientation_side, Real.cos_zero, Real.sin_zero,
      rotAxis_one_zero, rotAxis_one_zero, rotY_one_zero, rotY_one_zero]
    have hl : camC6.look_at = ⟨0, 0, -1, 0⟩ := rfl
    have hu : camC6.up = ⟨0, 1, 0, 0⟩ := rfl
    rw [hl, hu]
    norm_num [cross3, normalize3, dot3, Real.sqrt_one]
  intro hEq
  rw [hEq] at h1
  have h0 : camC6.side.x = 0 := rfl
  rw [h0] at h1
  exact absurd h1 (by norm_num)

/-- C6 (amended): provided `side` already equals the normalised cross
product of `look_at` and `up` (as holds for the constructors and after any
`setOrientation` call), `setOrientation(dir = 0, pitch = 0, yaw = 0)`
leaves `side`, `up`, `look_at` and `eye` unchanged and still sets
`is_changed = true`. -/
theorem setOrientation_zero_noop (cam : Camera)
    (hside : cam.side = normalize3 (cross3 cam.look_at cam.up)) :
    (cam.setOrientation vzero 0 0).side = cam.side ∧
    (cam.setOrientation vzero 0 0).up = cam.up ∧
    (cam.setOrientation vzero 0 0).look_at = cam.look_at ∧
    (cam.setOrientation vzero 0 0).eye = cam.eye ∧
    (cam.setOrientation vzero 0 0).is_changed = true := by
  refine ⟨?_, ?_, ?_, vadd_vzero cam.eye, rfl⟩
  · rw [Camera.setOrientation_side, Real.cos_zero, Real.sin_zero,
      rotAxis_one_zero, rotAxis_one_zero, rotY_one_zero, rotY_one_zero,
      hside]
  · rw [Camera.setOrientation_up, Real.cos_zero, Real.sin_zero,
      rotAxis_one_zero, rotY_one_zero]
  · rw [Camera.setOrientation_look_at, Real.cos_zero, Real.sin_zero,
      rotAxis_one_zero, rotY_one_zero]

/-- Witness for the amended C6 at a concrete camera. -/
theorem setOrientation_zero_noop_witness :
    ((Camera.init 90 0.25 0.3).setOrientation vzero 0 0).side =
      (Camera.init 90 0.25 0.3).side ∧
    ((Camera.init 90 0.25 0.3).setOrientation vzero 0 0).up =
      (Camera.init 90 0.25 0.3).up ∧
    ((Camera.init 90 0.25 0.3).setOrientation vzero 0 0).look_at =
      (Camera.init 90 0.25 0.3).look_at ∧
    ((Camera.init 90 0.25 0.3).setOrientation vzero 0 0).eye =
      (Camera.init 90 0.25 0.3).eye ∧
    ((Camera.init 90 0.25 0.3).setOrientation vzero 0 0).is_changed = true :=
  setOrientation_zero_noop (Camera.init 90 0.25 0.3)
    (by
      apply Vec4.ext' <;>
        norm_num [Camera.init, cross3, normalize3, dot3, Real.sqrt_one])

/-- A camera with an orthonormal but left-handed basis (`side = -X`,
`up = +Y`, `look_at = -Z`), installed verbatim by `setViewMatrix`. -/
noncomputable def camC9 : Camera :=
  (Camera.init 90 0.25 0.3).setViewMatrix
    ⟨-1, 0, 0, 0⟩ ⟨0, 1, 0, 0⟩ ⟨0, 0, -1, 0⟩ ⟨0, 0, 0, 1⟩

/-- C9 counterexample: `camC9` has an orthonormal basis, yet one
`setOrientation(0, 0, 2π)` call flips `side` from `-X` to `+X` (its `x`
component jumps from `-1` to `1`), so the basis does not return even
approximately to its starting orientation. -/
theorem full_turn_counterexample :
    orthonormalBasis camC9 ∧
    (camC9.setOrientation vzero 0 (2 * π)).side.x = 1 ∧
    camC9.side.x = -1 := by
  refine ⟨⟨?_, ?_, ?_, ?_, ?_, ?_⟩, ?_, rfl⟩
  · norm_num [camC9, Camera.setViewMatrix, dot3]
  · norm_num [camC9, Camera.setViewMatrix, dot3]
  · norm_num [camC9, Camera.setViewMatrix, dot3]
  · norm_num [camC9, Camera.setViewMatrix, dot3]
  · norm_num [camC9, Camera.setViewMatrix, dot3]
  · norm_num [camC9, Camera.setViewMatrix, dot3]
  · rw [Camera.setOrientation_side, Real.cos_zero, Real.sin_zero,
      Real.cos_two_pi, Real.sin_two_pi, rotAxis_one_zero, rotAxis_one_zero,
      rotY_one_zero, rotY_one_zero]
    have hl : camC9.look_at = ⟨0, 0, -1, 0⟩ := rfl
    have hu : camC9.up = ⟨0, 1, 0, 0⟩ := rfl
    rw [hl, hu]
    norm_num [cross3, normalize3, dot3, Real.sqrt_one]

/-- C9 (amended): starting from a right-handed orthonormal basis (one with
`side = look_at × up`), a single `setOrientation` call with `dir = 0`,
`pitch = 0` and `yaw = 2π` returns `side`, `up` and `look_at` exactly to
their starting values. -/
theorem setOrientation_full_turn (cam : Camera)
    (huu : dot3 cam.up cam.up = 1) (hll : dot3 cam.look_at cam.look_at = 1)
    (hul : dot3 cam.up cam.look_at = 0)
    (hside : cam.side = cross3 cam.look_at cam.up) :
    (cam.setOrientation vzero 0 (2 * π)).side = cam.side ∧
    (cam.setOrientation vzero 0 (2 * π)).up = cam.up ∧
    (cam.setOrientation vzero 0 (2 * π)).look_at = cam.look_at := by
  have hcr : dot3 (cross3 cam.look_at cam.up) (cross3 cam.look_at cam.up)
      = 1 := by
    have hlu : dot3 cam.look_at cam.up = 0 := by rw [dot3_comm]; exact hul
    rw [dot3_cross3_self, hll, huu, hlu]; norm_num
  refine ⟨?_, ?_, ?_⟩
  · rw [Camera.setOrientation_side, Real.cos_zero, Real.sin_zero,
      Real.cos_two_pi, Real.sin_two_pi, rotAxis_one_zero, rotAxis_one_zero,
      rotY_one_zero, rotY_one_zero, hside]
    exact normalize3_unit _ hcr
  · rw [Camera.setOrientation_up, Real.cos_zero, Real.sin_zero,
      Real.cos_two_pi, Real.sin_two_pi, rotAxis_one_zero, rotY_one_zero]
  · rw [Camera.setOrientation_look_at, Real.cos_zero, Real.sin_zero,
      Real.cos_two_pi, Real.sin_two_pi, rotAxis_one_zero, rotY_one_zero]

/-- Witness for the amended C9 at a concrete camera. -/
theorem setOrientation_full_turn_witness :
    ((Camera.init 90 0.25 0.3).setOrientation vzero 0 (2 * π)).side =
      (Camera.init 90 0.25 0.3).side ∧
    ((Camera.init 90 0.25 0.3).setOrientation vzero 0 (2 * π)).up =
      (Camera.init 90 0.25 0.3).up ∧
    ((Camera.init 90 0.25 0.3).setOrientation vzero 0 (2 * π)).look_at =
      (Camera.init 90 0.25 0.3).look_at :=
  setOrientation_full_turn (Camera.init 90 0.25 0.3)
    (by norm_num [Camera.init, dot3])
    (by norm_num [Camera.init, dot3])
    (by norm_num [Camera.init, dot3])
    (by apply Vec4.ext' <;> norm_num [Camera.init, cross3])
